import Mathlib

/-!
# `amtool alert query`: matcher groups, filter string, fetch and formatter dispatch

A shallow embedding of `cli/alert.go` (`alertQueryCmd.queryAlerts`).

* Go strings are Lean `String`s; `fmt.Sprintf("{%s}", x)` is `"{" ++ x ++ "}"`
  and `strings.Join(xs, ",")` is `",".intercalate xs`.
* A Go `error` result is `Option GoError` (`none` is `nil`); a Go
  `(value, error)` result is `Except GoError value`.
* The collaborators that live in other packages (`parse.Matcher`,
  `api.NewClient`, `client.AlertAPI.List`, `format.Formatters`, the package
  variables `alertmanagerURL` and `output`) are fields of an environment `Env`.
* Calls to the collaborators are recorded, in program order, in a list of
  `Event`s returned next to the result.
-/

namespace cli

/-! ## Data model -/

/-- A Go `error` value, identified by its message. -/
structure GoError where
  msg : String
deriving DecidableEq, Repr

namespace errors

/-- Go `errors.New`. -/
def New (msg : String) : GoError := ⟨msg⟩

end errors

/-- Modelled from the spec: the comparison operator of a matcher
(`labels.MatchType` is declared outside `cli/alert.go`): equals, not-equals,
regex-match, regex-not-match. -/
inductive MatchType where
  | MatchEqual
  | MatchNotEqual
  | MatchRegexp
  | MatchNotRegexp
deriving DecidableEq, Repr

/-- Modelled from the spec: a matcher (`labels.Matcher` is declared outside
`cli/alert.go`) is a parsed triple (label name, comparison operator, value). -/
structure Matcher where
  Name : String
  Op : MatchType
  Value : String
deriving DecidableEq, Repr

/-- The receiver of `queryAlerts` (`type alertQueryCmd struct`). -/
structure alertQueryCmd where
  inhibited : Bool
  silenced : Bool
  matcherGroups : List String
deriving DecidableEq, Repr

/-- A `format.Formatter`: only its method `FormatAlerts` is used here. -/
structure Formatter (α : Type) where
  FormatAlerts : List α → Option GoError

/-- Everything `queryAlerts` reads or calls outside `cli/alert.go`.
`κ` is the type of API clients, `α` the type of one fetched alert. -/
structure Env (κ α : Type) where
  /-- The function `parse.Matcher`. -/
  parseMatcher : String → Except GoError Matcher
  /-- The value of `alertmanagerURL.String()`. -/
  alertmanagerURL : String
  /-- The call `api.NewClient(api.Config{Address: address})`. -/
  NewClient : String → Except GoError κ
  /-- The call `client.NewAlertAPI(c).List(ctx, filter, silenced, inhibited)`. -/
  alertAPIList : κ → String → Bool → Bool → Except GoError (List α)
  /-- The map `format.Formatters`. -/
  Formatters : String → Option (Formatter α)
  /-- The package variable `output`. -/
  output : String

/-- A call made by `queryAlerts` to one of its collaborators. -/
inductive Event (α : Type) where
  /-- The call `api.NewClient` with the given address. -/
  | newClient (address : String)
  /-- The call `alertAPI.List(ctx, filter, silenced, inhibited)`. -/
  | list (filter : String) (silenced inhibited : Bool)
  /-- The map access `format.Formatters[name]`. -/
  | lookup (name : String)
  /-- The call `FormatAlerts(alerts)` on the formatter registered as `name`. -/
  | formatAlerts (name : String) (alerts : List α)
deriving DecidableEq, Repr

namespace Event

/-- Is the event a call of `alertAPI.List`? -/
def isList {α : Type} : Event α → Bool
  | list _ _ _ => true
  | _ => false

/-- Is the event an access to `format.Formatters`? -/
def isLookup {α : Type} : Event α → Bool
  | lookup _ => true
  | _ => false

/-- Is the event a call of some formatter's `FormatAlerts`? -/
def isFormatAlerts {α : Type} : Event α → Bool
  | formatAlerts _ _ => true
  | _ => false

end Event

/-! ## The program -/

/-- Lines 59-72 of `cli/alert.go`: the value of the local variable
`filterString` when the fetch is reached. -/
def filterString (parseMatcher : String → Except GoError Matcher)
    (matcherGroups : List String) : String :=
  if matcherGroups.length = 1 then
    match parseMatcher (matcherGroups.headD "") with
    | .error _ => "\x7balertname=" ++ matcherGroups.headD "" ++ "\x7d"
    | .ok _ => "\x7b" ++ ",".intercalate matcherGroups ++ "\x7d"
  else if matcherGroups.length > 1 then
    "\x7b" ++ ",".intercalate matcherGroups ++ "\x7d"
  else
    ""

/-- The method `(a *alertQueryCmd) queryAlerts`: the calls it makes, in order,
and the `error` it returns. -/
def queryAlerts {κ α : Type} (env : Env κ α) (a : alertQueryCmd) :
    List (Event α) × Option GoError :=
  let fs := filterString env.parseMatcher a.matcherGroups
  match env.NewClient env.alertmanagerURL with
  | .error err => ([.newClient env.alertmanagerURL], some err)
  | .ok c =>
    match env.alertAPIList c fs a.silenced a.inhibited with
    | .error err =>
      ([.newClient env.alertmanagerURL, .list fs a.silenced a.inhibited], some err)
    | .ok fetchedAlerts =>
      match env.Formatters env.output with
      | none =>
        ([.newClient env.alertmanagerURL, .list fs a.silenced a.inhibited,
          .lookup env.output], some (errors.New "unknown output formatter"))
      | some formatter =>
        ([.newClient env.alertmanagerURL, .list fs a.silenced a.inhibited,
          .lookup env.output, .formatAlerts env.output fetchedAlerts],
          formatter.FormatAlerts fetchedAlerts)

/-! ## A concrete matcher parser, used to evaluate the program on examples -/

namespace parse

/-- Characters of a label name: letters, digits and the underscore. -/
def isLabelChar (c : Char) : Bool := c.isAlphanum || c == '_'

/-- Modelled from the spec: `parse.Matcher` lives in `pkg/parse`, outside
`cli/alert.go`. A token is a matcher when it reads
`label-name (=|!=|=~|!~) value` with a non-empty label name; anything else
fails. The spec leaves the alphabet of label names open; letters, digits and
the underscore are taken here. -/
def Matcher (s : String) : Except GoError cli.Matcher :=
  match s.data.span isLabelChar with
  | ([], _) => .error ⟨"MalformedMatcher"⟩
  | (name, '=' :: '~' :: v) => .ok ⟨String.mk name, .MatchRegexp, String.mk v⟩
  | (name, '!' :: '~' :: v) => .ok ⟨String.mk name, .MatchNotRegexp, String.mk v⟩
  | (name, '!' :: '=' :: v) => .ok ⟨String.mk name, .MatchNotEqual, String.mk v⟩
  | (name, '=' :: v) => .ok ⟨String.mk name, .MatchEqual, String.mk v⟩
  | _ => .error ⟨"MalformedMatcher"⟩

end parse

/-- An environment for examples: the modelled parser, a client that is always
built, a service whose answer to every query is `fetch`, and two registered
formatters: `simple`, which always succeeds, and `json`, which always fails
with `broken pipe`. -/
def exampleEnv (output : String) (fetch : Except GoError (List Nat)) : Env Unit Nat where
  parseMatcher := parse.Matcher
  alertmanagerURL := "http://localhost:9093"
  NewClient := fun _ => .ok ()
  alertAPIList := fun _ _ _ _ => fetch
  Formatters := fun name =>
    if name = "simple" then some ⟨fun _ => none⟩
    else if name = "json" then some ⟨fun _ => some ⟨"broken pipe"⟩⟩
    else none
  output := output

/-! ## Auxiliary facts -/

theorem intercalate_go_append (sep x y : String) (rest : List String) :
    String.intercalate.go (x ++ y) sep rest = x ++ String.intercalate.go y sep rest := by
  induction rest generalizing y with
  | nil => rfl
  | cons b rest ih =>
    simp only [String.intercalate.go]
    rw [String.append_assoc, String.append_assoc, ih, String.append_assoc]

theorem intercalate_singleton (sep t : String) : sep.intercalate [t] = t := rfl

theorem intercalate_cons_cons (sep a b : String) (rest : List String) :
    sep.intercalate (a :: b :: rest) = a ++ sep ++ sep.intercalate (b :: rest) := by
  simp only [String.intercalate, String.intercalate.go]
  rw [String.append_assoc, intercalate_go_append, intercalate_go_append, String.append_assoc]

theorem intercalate_data (sep : String) (ts : List String) :
    (sep.intercalate ts).data = List.intercalate sep.data (ts.map String.data) := by
  induction ts with
  | nil => rfl
  | cons a rest ih =>
    cases rest with
    | nil => simp [intercalate_singleton, List.intercalate]
    | cons b rest =>
      rw [intercalate_cons_cons]
      simp only [String.data_append, ih]
      simp [List.intercalate, List.intersperse]

/-! ## The branches of the filter-string builder -/

theorem filterString_nil (p : String → Except GoError Matcher) : filterString p [] = "" := rfl

theorem filterString_single_error (p : String → Except GoError Matcher) (t : String)
    (e : GoError) (h : p t = .error e) :
    filterString p [t] = "\x7balertname=" ++ t ++ "\x7d" := by
  simp [filterString, h]

theorem filterString_single_ok (p : String → Except GoError Matcher) (t : String)
    (m : Matcher) (h : p t = .ok m) :
    filterString p [t] = "\x7b" ++ t ++ "\x7d" := by
  simp [filterString, h, intercalate_singleton]

theorem filterString_many (p : String → Except GoError Matcher) (ts : List String)
    (h : 2 ≤ ts.length) :
    filterString p ts = "\x7b" ++ ",".intercalate ts ++ "\x7d" := by
  have h1 : ¬ ts.length = 1 := by omega
  have h2 : ts.length > 1 := by omega
  simp [filterString, h1, h2]

theorem filterString_braced (p : String → Except GoError Matcher) (ts : List String)
    (hne : ts ≠ []) : ∃ body : String, filterString p ts = "\x7b" ++ body ++ "\x7d" := by
  match ts, hne with
  | [t], _ =>
    cases h : p t with
    | error e => exact ⟨"alertname=" ++ t, by
        rw [filterString_single_error p t e h, ← String.append_assoc]; rfl⟩
    | ok m => exact ⟨t, filterString_single_ok p t m h⟩
  | a :: b :: rest, _ =>
    exact ⟨",".intercalate (a :: b :: rest), filterString_many p _ (by simp)⟩

theorem braced_shape (body : String) :
    2 ≤ ("\x7b" ++ body ++ "\x7d").length ∧ ("\x7b" ++ body ++ "\x7d").front = '{' ∧
      ("\x7b" ++ body ++ "\x7d").back = '}' := by
  refine ⟨?_, ?_, ?_⟩
  · simp [String.length_append]
    have : ("\x7b" : String).length = 1 := rfl
    have : ("\x7d" : String).length = 1 := rfl
    omega
  · rw [String.front_eq]
    simp [String.data_append]
  · rw [String.back_eq]
    have h : ("\x7b" ++ body ++ "\x7d").data = ('{' :: body.data) ++ ['}'] := by
      simp [String.data_append]
    rw [h, List.getLastD_eq_getLast?, List.getLast?_concat]
    rfl

/-! ## The calls made by `queryAlerts` -/

theorem queryAlerts_list_events {κ α : Type} (env : Env κ α) (a : alertQueryCmd) (c : κ)
    (hc : env.NewClient env.alertmanagerURL = .ok c) :
    (queryAlerts env a).1.filter Event.isList =
      [Event.list (filterString env.parseMatcher a.matcherGroups) a.silenced a.inhibited] := by
  simp only [queryAlerts, hc]
  split
  · simp [Event.isList]
  · split <;> simp [Event.isList]

theorem queryAlerts_fetch_error {κ α : Type} (env : Env κ α) (a : alertQueryCmd) (c : κ)
    (e : GoError) (hc : env.NewClient env.alertmanagerURL = .ok c)
    (hfetch : env.alertAPIList c (filterString env.parseMatcher a.matcherGroups)
      a.silenced a.inhibited = .error e) :
    queryAlerts env a =
      ([Event.newClient env.alertmanagerURL,
        Event.list (filterString env.parseMatcher a.matcherGroups) a.silenced a.inhibited],
        some e) := by
  simp only [queryAlerts, hc, hfetch]

theorem queryAlerts_unknown_formatter {κ α : Type} (env : Env κ α) (a : alertQueryCmd)
    (c : κ) (A : List α) (hc : env.NewClient env.alertmanagerURL = .ok c)
    (hfetch : env.alertAPIList c (filterString env.parseMatcher a.matcherGroups)
      a.silenced a.inhibited = .ok A)
    (hfmt : env.Formatters env.output = none) :
    queryAlerts env a =
      ([Event.newClient env.alertmanagerURL,
        Event.list (filterString env.parseMatcher a.matcherGroups) a.silenced a.inhibited,
        Event.lookup env.output],
        some (errors.New "unknown output formatter")) := by
  simp only [queryAlerts, hc, hfetch, hfmt]

theorem queryAlerts_formatted {κ α : Type} (env : Env κ α) (a : alertQueryCmd)
    (c : κ) (A : List α) (f : Formatter α)
    (hc : env.NewClient env.alertmanagerURL = .ok c)
    (hfetch : env.alertAPIList c (filterString env.parseMatcher a.matcherGroups)
      a.silenced a.inhibited = .ok A)
    (hfmt : env.Formatters env.output = some f) :
    queryAlerts env a =
      ([Event.newClient env.alertmanagerURL,
        Event.list (filterString env.parseMatcher a.matcherGroups) a.silenced a.inhibited,
        Event.lookup env.output, Event.formatAlerts env.output A],
        f.FormatAlerts A) := by
  simp only [queryAlerts, hc, hfetch, hfmt]

/-! ## Claims about the filter expression -/

/-- C1, as stated, fails: with zero tokens the filter expression that
`queryAlerts` builds is the empty string, not the two-character string of an
opening and a closing brace, and the empty string is what the fetch receives. -/
theorem C1_zero_tokens_not_braces :
    filterString parse.Matcher [] ≠ "\x7b\x7d" ∧
    (queryAlerts (exampleEnv "simple" (.ok [1, 2, 3])) ⟨false, true, []⟩).1 =
      [Event.newClient "http://localhost:9093", Event.list "" true false,
        Event.lookup "simple", Event.formatAlerts "simple" [1, 2, 3]] := by
  decide

/-- C1 (amended): for every empty matcher-group sequence the filter
expression that `queryAlerts` builds is the empty string, and when the client
is built the fetch is called exactly once, with the empty string as its
filter. -/
theorem C1_zero_tokens_empty_filter {κ α : Type} (env : Env κ α) (a : alertQueryCmd) (c : κ)
    (hts : a.matcherGroups = [])
    (hc : env.NewClient env.alertmanagerURL = .ok c) :
    filterString env.parseMatcher a.matcherGroups = "" ∧
    (queryAlerts env a).1.filter Event.isList = [Event.list "" a.silenced a.inhibited] := by
  have h : filterString env.parseMatcher a.matcherGroups = "" := by
    rw [hts]; exact filterString_nil _
  refine ⟨h, ?_⟩
  rw [queryAlerts_list_events env a c hc, h]

/-- C1 (amended) at zero tokens with `silenced` set and `inhibited` unset. -/
theorem C1_zero_tokens_empty_filter_witness :
    filterString parse.Matcher [] = "" ∧
    (queryAlerts (exampleEnv "simple" (.ok [1, 2, 3])) ⟨false, true, []⟩).1.filter Event.isList =
      [Event.list "" true false] :=
  C1_zero_tokens_empty_filter (exampleEnv "simple" (.ok [1, 2, 3])) ⟨false, true, []⟩ () rfl rfl

/-- C2: for a single token `t` that `parse.Matcher` rejects, the built filter
expression is `{alertname=` followed by `t`, verbatim, followed by `}`, and
when the client is built this is the filter the one fetch receives. -/
theorem C2_single_rejected_token_gets_alertname {κ α : Type} (env : Env κ α)
    (a : alertQueryCmd) (t : String) (e : GoError)
    (hts : a.matcherGroups = [t])
    (hparse : env.parseMatcher t = .error e) :
    filterString env.parseMatcher a.matcherGroups = "\x7balertname=" ++ t ++ "\x7d" ∧
    ∀ c : κ, env.NewClient env.alertmanagerURL = .ok c →
      (queryAlerts env a).1.filter Event.isList =
        [Event.list ("\x7balertname=" ++ t ++ "\x7d") a.silenced a.inhibited] := by
  have h : filterString env.parseMatcher a.matcherGroups = "\x7balertname=" ++ t ++ "\x7d" := by
    rw [hts]; exact filterString_single_error _ t e hparse
  refine ⟨h, fun c hc => ?_⟩
  rw [queryAlerts_list_events env a c hc, h]

/-- C2 at the tokens `foo` (no operator) and `=foo` (empty label name), both
rejected by the modelled parser. -/
theorem C2_single_rejected_token_gets_alertname_witness :
    (parse.Matcher "foo" = .error ⟨"MalformedMatcher"⟩ ∧
      filterString parse.Matcher ["foo"] = "\x7balertname=foo\x7d" ∧
      (queryAlerts (exampleEnv "simple" (.ok [1, 2, 3])) ⟨false, false, ["foo"]⟩).1.filter
        Event.isList = [Event.list "\x7balertname=foo\x7d" false false]) ∧
    (parse.Matcher "=foo" = .error ⟨"MalformedMatcher"⟩ ∧
      filterString parse.Matcher ["=foo"] = "\x7balertname==foo\x7d") :=
  have h := C2_single_rejected_token_gets_alertname (exampleEnv "simple" (.ok [1, 2, 3]))
    ⟨false, false, ["foo"]⟩ "foo" ⟨"MalformedMatcher"⟩ rfl rfl
  have h2 := C2_single_rejected_token_gets_alertname (exampleEnv "simple" (.ok [1, 2, 3]))
    ⟨false, false, ["=foo"]⟩ "=foo" ⟨"MalformedMatcher"⟩ rfl rfl
  ⟨⟨rfl, h.1, h.2 () rfl⟩, rfl, h2.1⟩

/-- C3: for a single token `t` that `parse.Matcher` accepts, the built filter
expression is `{` followed by `t`, verbatim, followed by `}`, with no
`alertname=` added, and when the client is built this is the filter the one
fetch receives. -/
theorem C3_single_accepted_token_verbatim {κ α : Type} (env : Env κ α)
    (a : alertQueryCmd) (t : String) (m : Matcher)
    (hts : a.matcherGroups = [t])
    (hparse : env.parseMatcher t = .ok m) :
    filterString env.parseMatcher a.matcherGroups = "\x7b" ++ t ++ "\x7d" ∧
    ∀ c : κ, env.NewClient env.alertmanagerURL = .ok c →
      (queryAlerts env a).1.filter Event.isList =
        [Event.list ("\x7b" ++ t ++ "\x7d") a.silenced a.inhibited] := by
  have h : filterString env.parseMatcher a.matcherGroups = "\x7b" ++ t ++ "\x7d" := by
    rw [hts]; exact filterString_single_ok _ t m hparse
  refine ⟨h, fun c hc => ?_⟩
  rw [queryAlerts_list_events env a c hc, h]

/-- C3 at the tokens `alertname=~foo.*`, `node=bar` and `severity!=critical`,
all accepted by the modelled parser. -/
theorem C3_single_accepted_token_verbatim_witness :
    (parse.Matcher "alertname=~foo.*" = .ok ⟨"alertname", .MatchRegexp, "foo.*"⟩ ∧
      filterString parse.Matcher ["alertname=~foo.*"] = "\x7balertname=~foo.*\x7d" ∧
      (queryAlerts (exampleEnv "simple" (.ok [1, 2, 3]))
        ⟨false, false, ["alertname=~foo.*"]⟩).1.filter Event.isList =
        [Event.list "\x7balertname=~foo.*\x7d" false false]) ∧
    (parse.Matcher "node=bar" = .ok ⟨"node", .MatchEqual, "bar"⟩ ∧
      filterString parse.Matcher ["node=bar"] = "\x7bnode=bar\x7d") ∧
    (parse.Matcher "severity!=critical" = .ok ⟨"severity", .MatchNotEqual, "critical"⟩ ∧
      filterString parse.Matcher ["severity!=critical"] = "\x7bseverity!=critical\x7d") :=
  have h := C3_single_accepted_token_verbatim (exampleEnv "simple" (.ok [1, 2, 3]))
    ⟨false, false, ["alertname=~foo.*"]⟩ "alertname=~foo.*"
    ⟨"alertname", .MatchRegexp, "foo.*"⟩ rfl rfl
  have h2 := C3_single_accepted_token_verbatim (exampleEnv "simple" (.ok [1, 2, 3]))
    ⟨false, false, ["node=bar"]⟩ "node=bar" ⟨"node", .MatchEqual, "bar"⟩ rfl rfl
  have h3 := C3_single_accepted_token_verbatim (exampleEnv "simple" (.ok [1, 2, 3]))
    ⟨false, false, ["severity!=critical"]⟩ "severity!=critical"
    ⟨"severity", .MatchNotEqual, "critical"⟩ rfl rfl
  ⟨⟨rfl, h.1, h.2 () rfl⟩, ⟨rfl, h2.1⟩, rfl, h3.1⟩

/-- C4: for two or more tokens the built filter expression is `{`, the tokens
joined by `,` in their original order, `}`; its characters are those of the
tokens, in order, with one comma between neighbours; the matcher parser has no
influence on it; and when the client is built it is the filter the one fetch
receives. -/
theorem C4_many_tokens_joined {κ α : Type} (env : Env κ α) (a : alertQueryCmd)
    (hlen : 2 ≤ a.matcherGroups.length) :
    filterString env.parseMatcher a.matcherGroups =
      "\x7b" ++ ",".intercalate a.matcherGroups ++ "\x7d" ∧
    (filterString env.parseMatcher a.matcherGroups).data =
      '{' :: List.intercalate [','] (a.matcherGroups.map String.data) ++ ['}'] ∧
    (∀ q : String → Except GoError Matcher,
      filterString q a.matcherGroups = filterString env.parseMatcher a.matcherGroups) ∧
    ∀ c : κ, env.NewClient env.alertmanagerURL = .ok c →
      (queryAlerts env a).1.filter Event.isList =
        [Event.list ("\x7b" ++ ",".intercalate a.matcherGroups ++ "\x7d")
          a.silenced a.inhibited] := by
  have h := filterString_many env.parseMatcher a.matcherGroups hlen
  refine ⟨h, ?_, fun q => ?_, fun c hc => ?_⟩
  · rw [h]
    simp only [String.data_append, intercalate_data]
    rfl
  · rw [h, filterString_many q a.matcherGroups hlen]
  · rw [queryAlerts_list_events env a c hc, h]

/-- C4 at the tokens `alertname=foo` and `node=bar`. -/
theorem C4_many_tokens_joined_witness :
    filterString parse.Matcher ["alertname=foo", "node=bar"] =
      "\x7balertname=foo,node=bar\x7d" ∧
    (queryAlerts (exampleEnv "simple" (.ok [1, 2, 3]))
      ⟨false, false, ["alertname=foo", "node=bar"]⟩).1.filter Event.isList =
      [Event.list "\x7balertname=foo,node=bar\x7d" false false] :=
  have h := C4_many_tokens_joined (exampleEnv "simple" (.ok [1, 2, 3]))
    ⟨false, false, ["alertname=foo", "node=bar"]⟩ (by decide)
  ⟨h.1, h.2.2.2 () rfl⟩

/-- C5, evaluated on the help text's own example: for the tokens `foo` and
`node=bar` the code builds `{foo,node=bar}`, whatever the matcher parser
says, and not `{alertname=foo,node=bar}`: the first clause is the bare token,
although it contains no `=`. -/
theorem C5_help_example_not_prefixed (p : String → Except GoError Matcher) :
    filterString p ["foo", "node=bar"] = "\x7bfoo,node=bar\x7d" ∧
    filterString p ["foo", "node=bar"] ≠ "\x7balertname=foo,node=bar\x7d" ∧
    '=' ∉ ("foo" : String).data := by
  have h : filterString p ["foo", "node=bar"] = "\x7bfoo,node=bar\x7d" :=
    filterString_many p _ (by decide)
  refine ⟨h, ?_, by decide⟩
  rw [h]
  decide

/-- C10, as stated, fails: with zero tokens the built expression has length 0,
so it is not of the form `{...}`. -/
theorem C10_zero_tokens_not_braced :
    (filterString parse.Matcher []).length = 0 ∧
    ¬ (2 ≤ (filterString parse.Matcher []).length ∧
        (filterString parse.Matcher []).front = '{' ∧
        (filterString parse.Matcher []).back = '}') := by
  decide

/-- C10 (amended): for every non-empty token sequence and every outcome of the
matcher parser, the built expression has length at least 2, its first
character is `{` and its last character is `}`. -/
theorem C10_nonempty_tokens_braced (p : String → Except GoError Matcher)
    (ts : List String) (hne : ts ≠ []) :
    2 ≤ (filterString p ts).length ∧ (filterString p ts).front = '{' ∧
      (filterString p ts).back = '}' := by
  obtain ⟨body, hbody⟩ := filterString_braced p ts hne
  rw [hbody]
  exact braced_shape body

/-- C10 (amended) at the single token `foo`. -/
theorem C10_nonempty_tokens_braced_witness :
    2 ≤ (filterString parse.Matcher ["foo"]).length ∧
    (filterString parse.Matcher ["foo"]).front = '{' ∧
    (filterString parse.Matcher ["foo"]).back = '}' :=
  C10_nonempty_tokens_braced parse.Matcher ["foo"] (by decide)

/-! ## Claims about the fetch and the formatter dispatch -/

/-- C6: whenever the client is built, `queryAlerts` calls the fetch exactly
once, whether the fetch then succeeds or fails, and the arguments of that call
are the built filter expression, the `silenced` flag as `silenced` and the
`inhibited` flag as `inhibited`. -/
theorem C6_one_fetch_flags_unchanged {κ α : Type} (env : Env κ α) (a : alertQueryCmd)
    (c : κ) (hc : env.NewClient env.alertmanagerURL = .ok c) :
    (queryAlerts env a).1.filter Event.isList =
      [Event.list (filterString env.parseMatcher a.matcherGroups) a.silenced a.inhibited] ∧
    ((queryAlerts env a).1.filter Event.isList).length = 1 := by
  have h := queryAlerts_list_events env a c hc
  exact ⟨h, by rw [h]; rfl⟩

/-- C6 at zero tokens with `silenced` set and `inhibited` unset, once with a
fetch that succeeds and once with a fetch that fails. -/
theorem C6_one_fetch_flags_unchanged_witness :
    (queryAlerts (exampleEnv "simple" (.ok [1, 2, 3]))
      { inhibited := false, silenced := true, matcherGroups := [] }).1.filter Event.isList =
      [Event.list "" true false] ∧
    (queryAlerts (exampleEnv "simple" (.error ⟨"connection refused"⟩))
      { inhibited := false, silenced := true, matcherGroups := [] }).1.filter Event.isList =
      [Event.list "" true false] :=
  ⟨(C6_one_fetch_flags_unchanged (exampleEnv "simple" (.ok [1, 2, 3]))
      { inhibited := false, silenced := true, matcherGroups := [] } () rfl).1,
   (C6_one_fetch_flags_unchanged (exampleEnv "simple" (.error ⟨"connection refused"⟩))
      { inhibited := false, silenced := true, matcherGroups := [] } () rfl).1⟩

/-- C7: when the client is built, the fetch succeeds and the formatter name is
absent from the mapping, `queryAlerts` returns the error
`unknown output formatter`, calls no formatter, and has by then made exactly
the calls: client construction, fetch, formatter lookup, in this order. -/
theorem C7_unknown_formatter_after_fetch {κ α : Type} (env : Env κ α) (a : alertQueryCmd)
    (c : κ) (A : List α) (hc : env.NewClient env.alertmanagerURL = .ok c)
    (hfetch : env.alertAPIList c (filterString env.parseMatcher a.matcherGroups)
      a.silenced a.inhibited = .ok A)
    (hfmt : env.Formatters env.output = none) :
    (queryAlerts env a).2 = some (errors.New "unknown output formatter") ∧
    (queryAlerts env a).1.filter Event.isFormatAlerts = [] ∧
    (queryAlerts env a).1 =
      [Event.newClient env.alertmanagerURL,
        Event.list (filterString env.parseMatcher a.matcherGroups) a.silenced a.inhibited,
        Event.lookup env.output] := by
  rw [queryAlerts_unknown_formatter env a c A hc hfetch hfmt]
  exact ⟨rfl, rfl, rfl⟩

/-- C7 at the unregistered formatter name `yaml`. -/
theorem C7_unknown_formatter_after_fetch_witness :
    (queryAlerts (exampleEnv "yaml" (.ok [1, 2, 3])) ⟨false, false, ["foo"]⟩).2 =
      some ⟨"unknown output formatter"⟩ ∧
    (queryAlerts (exampleEnv "yaml" (.ok [1, 2, 3])) ⟨false, false, ["foo"]⟩).1 =
      [Event.newClient "http://localhost:9093",
        Event.list "\x7balertname=foo\x7d" false false, Event.lookup "yaml"] :=
  have h := C7_unknown_formatter_after_fetch (exampleEnv "yaml" (.ok [1, 2, 3]))
    ⟨false, false, ["foo"]⟩ () [1, 2, 3] rfl rfl rfl
  ⟨h.1, h.2.2⟩

/-- C8: when the client is built, the fetch succeeds with the alert set `A` and
the formatter name is registered, `queryAlerts` calls the formatter registered
under that name exactly once, with `A` itself, and returns what that call
returns: `nil` when it succeeds, its error unchanged when it fails. -/
theorem C8_registered_formatter_gets_fetched_alerts {κ α : Type} (env : Env κ α)
    (a : alertQueryCmd) (c : κ) (A : List α) (f : Formatter α)
    (hc : env.NewClient env.alertmanagerURL = .ok c)
    (hfetch : env.alertAPIList c (filterString env.parseMatcher a.matcherGroups)
      a.silenced a.inhibited = .ok A)
    (hfmt : env.Formatters env.output = some f) :
    (queryAlerts env a).1.filter Event.isFormatAlerts = [Event.formatAlerts env.output A] ∧
    (queryAlerts env a).2 = f.FormatAlerts A := by
  rw [queryAlerts_formatted env a c A f hc hfetch hfmt]
  exact ⟨rfl, rfl⟩

/-- C8 at the formatter `simple`, which succeeds, and at the formatter `json`,
which fails. -/
theorem C8_registered_formatter_gets_fetched_alerts_witness :
    ((queryAlerts (exampleEnv "simple" (.ok [3, 1, 2])) ⟨false, false, []⟩).1.filter
        Event.isFormatAlerts = [Event.formatAlerts "simple" [3, 1, 2]] ∧
      (queryAlerts (exampleEnv "simple" (.ok [3, 1, 2])) ⟨false, false, []⟩).2 = none) ∧
    ((queryAlerts (exampleEnv "json" (.ok [3, 1, 2])) ⟨false, false, []⟩).1.filter
        Event.isFormatAlerts = [Event.formatAlerts "json" [3, 1, 2]] ∧
      (queryAlerts (exampleEnv "json" (.ok [3, 1, 2])) ⟨false, false, []⟩).2 =
        some ⟨"broken pipe"⟩) :=
  ⟨C8_registered_formatter_gets_fetched_alerts (exampleEnv "simple" (.ok [3, 1, 2]))
      ⟨false, false, []⟩ () [3, 1, 2] ⟨fun _ => none⟩ rfl rfl rfl,
   C8_registered_formatter_gets_fetched_alerts (exampleEnv "json" (.ok [3, 1, 2]))
      ⟨false, false, []⟩ () [3, 1, 2] ⟨fun _ => some ⟨"broken pipe"⟩⟩ rfl rfl rfl⟩

/-- C9: when the client is built and the fetch fails with the error `e`,
`queryAlerts` returns exactly `e` and makes neither a formatter lookup nor a
formatter call; nothing is assumed about the formatter name, so an unknown
name still yields `e`. -/
theorem C9_fetch_error_returned_verbatim {κ α : Type} (env : Env κ α) (a : alertQueryCmd)
    (c : κ) (e : GoError) (hc : env.NewClient env.alertmanagerURL = .ok c)
    (hfetch : env.alertAPIList c (filterString env.parseMatcher a.matcherGroups)
      a.silenced a.inhibited = .error e) :
    (queryAlerts env a).2 = some e ∧
    (queryAlerts env a).1.filter Event.isLookup = [] ∧
    (queryAlerts env a).1.filter Event.isFormatAlerts = [] := by
  rw [queryAlerts_fetch_error env a c e hc hfetch]
  exact ⟨rfl, rfl, rfl⟩

/-- C9 at a refused connection, with the unregistered formatter name `yaml`. -/
theorem C9_fetch_error_returned_verbatim_witness :
    (exampleEnv "yaml" (.error ⟨"connection refused"⟩)).Formatters "yaml" = none ∧
    (queryAlerts (exampleEnv "yaml" (.error ⟨"connection refused"⟩)) ⟨false, false, []⟩).2 =
      some ⟨"connection refused"⟩ ∧
    (queryAlerts (exampleEnv "yaml" (.error ⟨"connection refused"⟩)) ⟨false, false, []⟩).1 =
      [Event.newClient "http://localhost:9093", Event.list "" false false] :=
  have h := C9_fetch_error_returned_verbatim (exampleEnv "yaml" (.error ⟨"connection refused"⟩))
    ⟨false, false, []⟩ () ⟨"connection refused"⟩ rfl rfl
  ⟨rfl, h.1, rfl⟩

end cli
